import Mathlib

/-!
Verification of the Adaptive Learning State Engine
(`api/routes/adaptive_learning.py`).

Numeric model: Python floats are modelled as rationals (`ℚ`); Python ints
as `ℤ`; `Optional[float]` as `Option ℚ`.  The builtin `round` is modelled
by `python_round` (round half to even, as CPython does).
-/

namespace AdaptiveLearning

/-- `clamp_01` (line 98): `max(0.0, min(1.0, x))`. -/
def clamp_01 (x : ℚ) : ℚ := max 0 (min 1 x)

/-- `ema` (line 102): `prev + alpha * (value - prev)`. -/
def ema (prev value alpha : ℚ) : ℚ := prev + alpha * (value - prev)

/-- The confidence factor in `update_mastery` (line 109):
`0.7 + 0.3 * (confidence or 0.5) if confidence is not None else 1.0`.
Python's `confidence or 0.5` evaluates to `0.5` whenever `confidence`
is falsy, i.e. equals `0.0`; otherwise it is `confidence` itself. -/
def conf_factor_of : Option ℚ → ℚ
  | none => 1
  | some c => 0.7 + 0.3 * (if c = 0 then 0.5 else c)

/-- `update_mastery` (lines 106-112). -/
def update_mastery (prev : ℚ) (correct : Bool) (latency_ms : ℤ)
    (confidence : Option ℚ) : ℚ :=
  let speed_factor : ℚ := if latency_ms < 15000 then 1 else 0.6
  let conf_factor : ℚ := conf_factor_of confidence
  let target : ℚ := if correct then 1 else 0
  let alpha : ℚ := 0.15 * speed_factor * conf_factor
  clamp_01 (prev + alpha * (target - prev))

/-- `update_stability` (lines 114-120): returns
`(correct_ema, volatility, stability)`. -/
def update_stability (prev_correct_ema prev_volatility : ℚ) (correct : Bool) :
    ℚ × ℚ × ℚ :=
  let c : ℚ := if correct then 1 else 0
  let correct_ema := ema prev_correct_ema c 0.2
  let volatility := ema prev_volatility |c - correct_ema| 0.1
  let stability := 1 - volatility
  (correct_ema, volatility, clamp_01 stability)

/-- `update_pace` (lines 122-126), with the fixed default
`target_ms = 20000` inlined: `ratio = latency_ms / target_ms`;
`pace_score = clamp_01(1 - max(0, ratio - 1))`; EMA with alpha 0.1. -/
def update_pace (prev_pace : ℚ) (latency_ms : ℤ) : ℚ :=
  let pace_score := clamp_01 (1 - max 0 ((latency_ms : ℚ) / 20000 - 1))
  ema prev_pace pace_score 0.1

/-- `update_calibration` (lines 128-134): unchanged when confidence is
absent, otherwise EMA towards `1 - |confidence - c|`. -/
def update_calibration (prev_calibration : ℚ) (correct : Bool)
    (confidence : Option ℚ) : ℚ :=
  match confidence with
  | none => prev_calibration
  | some conf =>
      let c : ℚ := if correct then 1 else 0
      let score := 1 - |conf - c|
      ema prev_calibration score 0.1

/-- CPython's builtin `round` on a rational: round half to even. -/
def python_round (q : ℚ) : ℤ :=
  let f := ⌊q⌋
  let r := q - f
  if r < 1/2 then f
  else if 1/2 < r then f + 1
  else if f % 2 = 0 then f else f + 1

/-- `compute_learning_index` (lines 136-139):
`round((0.55*mastery + 0.15*stability + 0.15*pace + 0.15*calibration)*100)`. -/
def compute_learning_index (mastery stability pace calibration : ℚ) : ℤ :=
  let li := 0.55 * mastery + 0.15 * stability + 0.15 * pace
    + 0.15 * calibration
  python_round (li * 100)

/-- `difficulty_band` (lines 141-148). -/
def difficulty_band (mastery : ℚ) : String :=
  if mastery < 0.35 then "intro"
  else if mastery < 0.75 then "core"
  else "stretch"

/-- One row of the recent-events query in `next_lesson_turn`
(lines 333-341): the dicts carry exactly these four keys. -/
structure RecentEvent where
  event_type : String
  correct : Bool
  latency_ms : ℤ
  confidence : Option ℚ
deriving DecidableEq, Repr

/-- `decide_next_mode` (lines 150-164).  `recent_events[-3:]` is
`drop (length - 3)`; `corrects`/`misses` count the correct/incorrect
entries; `avg_latency` is the rational mean of the latencies. -/
def decide_next_mode (recent_events : List RecentEvent) : String :=
  if recent_events.length < 2 then "explain"
  else
    let recent := recent_events.drop (recent_events.length - 3)
    let corrects := (recent.filter (fun e => e.correct)).length
    let misses := (recent.filter (fun e => !e.correct)).length
    let avg_latency : ℚ :=
      ((recent.map (fun e => (e.latency_ms : ℚ))).sum) / (recent.length : ℚ)
    if misses ≥ 2 then "explain"
    else if corrects ≥ 1 ∧ avg_latency < 20000 then "exercise"
    else "explain"

/-- The `EventSubmission` pydantic model (lines 29-39).  Every field is a
plain type annotation: `latency_ms: int`, `confidence: Optional[float]`,
`event_type: str`.  No `Field` constraint, validator, or enum restricts
their values, so a well-typed submission always validates. -/
structure EventSubmission where
  student_id : String
  subject : String
  topic_id : String
  event_type : String
  correct : Bool
  latency_ms : ℤ
  confidence : Option ℚ
  item_id : Option String
  difficulty : Option String
deriving DecidableEq, Repr

/-- Pydantic validation of `EventSubmission` over well-typed field values:
the model (lines 29-39) declares no range or enum constraint on any field,
so validation never fails and no field is ever reported. -/
def validate_event_submission (s : EventSubmission) :
    Except (List String) EventSubmission :=
  Except.ok s

/-- The per-(student, topic) metric state: the five floats read and
written by `submit_event` (lines 207-213 and 246-268). -/
structure TopicState where
  mastery : ℚ
  correct_ema : ℚ
  volatility : ℚ
  pace : ℚ
  calibration : ℚ
deriving DecidableEq, Repr

/-- The freshly initialized state of lines 207-213. -/
def default_topic_state : TopicState :=
  { mastery := 0, correct_ema := 0, volatility := 0.5,
    pace := 0.5, calibration := 0.5 }

/-- The metric update performed by `submit_event` (lines 216-238): the
four updaters applied to the current state and the incoming event. -/
def apply_event (s : TopicState) (e : EventSubmission) : TopicState :=
  let st := update_stability s.correct_ema s.volatility e.correct
  { mastery := update_mastery s.mastery e.correct e.latency_ms e.confidence,
    correct_ema := st.1,
    volatility := st.2.1,
    pace := update_pace s.pace e.latency_ms,
    calibration := update_calibration s.calibration e.correct e.confidence }

/-- The stability value computed alongside `apply_event`
(third component of `update_stability`). -/
def stability_of (s : TopicState) : ℚ := 1 - s.volatility

/-- A valid event in the sense of the spec's validation rules:
`latency_ms ≥ 0` and, when present, `confidence ∈ [0,1]`. -/
def ValidEvent (e : EventSubmission) : Prop :=
  0 ≤ e.latency_ms ∧ ∀ c ∈ e.confidence, 0 ≤ c ∧ c ≤ 1

instance (e : EventSubmission) : Decidable (ValidEvent e) := by
  unfold ValidEvent; infer_instance

/-- The recent-events fetch of `next_lesson_turn` (lines 323-341):
`ORDER BY created_at DESC LIMIT 5` over the chronological event log
(oldest first) yields the 5 most recent events, most recent FIRST. -/
def fetch_recent (log : List RecentEvent) : List RecentEvent :=
  log.reverse.take 5

/-- The mode computed by `next_lesson_turn` (line 343): the policy applied
directly to the DESC-ordered fetch result. -/
def next_lesson_mode (log : List RecentEvent) : String :=
  decide_next_mode (fetch_recent log)

/-- Modelled from the spec (§6 GetNextMode, §4.4): the policy applied to
the fetched history reordered most-recent-LAST, so that its `[-3:]` slice
examines the 3 most recent events. -/
def next_mode_spec (log : List RecentEvent) : String :=
  decide_next_mode (fetch_recent log).reverse

/-- Modelled from the spec (§4.2 Mastery): `conf_factor = 1.0` if
confidence is absent, else exactly `0.7 + 0.3*confidence`. -/
def conf_factor_spec : Option ℚ → ℚ
  | none => 1
  | some c => 0.7 + 0.3 * c

/-- Modelled from the spec (§4.2 Mastery): the mastery update with
`conf_factor_spec` in place of the code's confidence factor. -/
def update_mastery_spec (prev : ℚ) (correct : Bool) (latency_ms : ℤ)
    (confidence : Option ℚ) : ℚ :=
  let speed_factor : ℚ := if latency_ms < 15000 then 1 else 0.6
  let target : ℚ := if correct then 1 else 0
  let alpha : ℚ := 0.15 * speed_factor * conf_factor_spec confidence
  clamp_01 (prev + alpha * (target - prev))

/-- The single-row database seen by `submit_event` for one
(student_id, topic_id) key: the current `student_topic_state` row. -/
structure KeyStore where
  state : TopicState
deriving DecidableEq, Repr

/-- The state read of `submit_event` (lines 198-203): a plain SELECT of
the current row. -/
def read_state (db : KeyStore) : TopicState := db.state

/-- The state write of `submit_event` (lines 246-256): an UPDATE whose
WHERE clause names only the key, with no version or expected-value
condition, so it always matches the row and always succeeds. -/
def write_state (_db : KeyStore) (s : TopicState) : KeyStore × Bool :=
  ({ state := s }, true)

/-- Two `submit_event` calls for the same key interleaved so that both
SELECT (lines 198-203) the same base row before either UPDATE
(lines 246-256) runs; each call then writes the state computed from its
own snapshot.  Returns the final store and each call's write outcome. -/
def run_both_read_then_write (db : KeyStore) (e1 e2 : EventSubmission) :
    KeyStore × Bool × Bool :=
  let snap1 := read_state db
  let snap2 := read_state db
  let (db1, ok1) := write_state db (apply_event snap1 e1)
  let (db2, ok2) := write_state db1 (apply_event snap2 e2)
  (db2, ok1, ok2)

/-- Serial application of the two events: the second call reads the state
the first one wrote. -/
def run_serial (db : KeyStore) (e1 e2 : EventSubmission) : KeyStore :=
  { state := apply_event (apply_event (read_state db) e1) e2 }

/-- Modelled from the spec (§4.4): the last 3 events of a
most-recent-last history, i.e. the 3 most recent ones. -/
def last_three (l : List RecentEvent) : List RecentEvent :=
  (l.reverse.take 3).reverse

/-- Modelled from the spec (§4.4): `corrects` = count of correct events. -/
def corrects_in (l : List RecentEvent) : ℕ :=
  l.countP (fun e => e.correct)

/-- Modelled from the spec (§4.4): `misses` = count of incorrect events. -/
def misses_in (l : List RecentEvent) : ℕ :=
  l.countP (fun e => !e.correct)

/-- Modelled from the spec (§4.4): `avg_latency` = mean latency. -/
def avg_latency_in (l : List RecentEvent) : ℚ :=
  ((l.map (fun e => (e.latency_ms : ℚ))).sum) / (l.length : ℚ)

/-- A chronological (oldest-first) event log exercising the window of
`next_lesson_turn`: three fast correct answers followed by two misses,
so the 3 most recent events (the miss, the miss and one correct) differ
from the 3 oldest of the 5 fetched (all correct). -/
def stale_window_log : List RecentEvent :=
  [⟨"exercise", true, 1000, none⟩,
   ⟨"exercise", true, 1000, none⟩,
   ⟨"exercise", true, 1000, none⟩,
   ⟨"exercise", false, 1000, none⟩,
   ⟨"exercise", false, 1000, none⟩]

/-- A well-typed submission whose `latency_ms` is negative. -/
def negative_latency_submission : EventSubmission :=
  { student_id := "s1", subject := "physics", topic_id := "mechanics",
    event_type := "probe", correct := true, latency_ms := -1,
    confidence := none, item_id := none, difficulty := none }

/-- A well-typed submission whose `event_type` is outside the documented
enum and whose `confidence` lies outside `[0,1]`. -/
def bogus_type_submission : EventSubmission :=
  { student_id := "s1", subject := "physics", topic_id := "mechanics",
    event_type := "bogus", correct := false, latency_ms := 2000,
    confidence := some 2, item_id := none, difficulty := none }

/-- A plain valid submission used to exhibit the concurrent lost update. -/
def sample_submission : EventSubmission :=
  { student_id := "s1", subject := "physics", topic_id := "mechanics",
    event_type := "probe", correct := true, latency_ms := 5000,
    confidence := none, item_id := none, difficulty := none }

/-- The invariant claimed for every reachable `TopicState`: all five
stored metrics lie in `[0,1]`. -/
def StateInv (s : TopicState) : Prop :=
  0 ≤ s.mastery ∧ s.mastery ≤ 1 ∧
  0 ≤ s.correct_ema ∧ s.correct_ema ≤ 1 ∧
  0 ≤ s.volatility ∧ s.volatility ≤ 1 ∧
  0 ≤ s.pace ∧ s.pace ≤ 1 ∧
  0 ≤ s.calibration ∧ s.calibration ≤ 1

instance (s : TopicState) : Decidable (StateInv s) := by
  unfold StateInv; infer_instance

/-! ### Helper lemmas -/

theorem clamp_01_nonneg (x : ℚ) : 0 ≤ clamp_01 x :=
  le_max_left 0 _

theorem clamp_01_le_one (x : ℚ) : clamp_01 x ≤ 1 :=
  max_le zero_le_one (min_le_left 1 x)

theorem clamp_01_eq_self {x : ℚ} (h0 : 0 ≤ x) (h1 : x ≤ 1) :
    clamp_01 x = x := by
  unfold clamp_01
  rw [min_eq_right h1, max_eq_right h0]

theorem ema_mem {prev value alpha : ℚ} (ha0 : 0 ≤ alpha) (ha1 : alpha ≤ 1)
    (hp0 : 0 ≤ prev) (hp1 : prev ≤ 1) (hv0 : 0 ≤ value) (hv1 : value ≤ 1) :
    0 ≤ ema prev value alpha ∧ ema prev value alpha ≤ 1 := by
  unfold ema
  constructor
  · nlinarith [mul_nonneg ha0 hv0, mul_nonneg (sub_nonneg.mpr ha1) hp0]
  · nlinarith [mul_nonneg (sub_nonneg.mpr ha1) (sub_nonneg.mpr hp1),
      mul_nonneg ha0 (sub_nonneg.mpr hv1)]

theorem conf_factor_of_mem {conf : Option ℚ}
    (h : ∀ c ∈ conf, 0 ≤ c ∧ c ≤ 1) :
    7/10 ≤ conf_factor_of conf ∧ conf_factor_of conf ≤ 1 := by
  cases conf with
  | none => exact ⟨by norm_num [conf_factor_of], by norm_num [conf_factor_of]⟩
  | some c =>
      obtain ⟨hc0, hc1⟩ := h c rfl
      simp only [conf_factor_of]
      split_ifs with hz
      · norm_num
      · constructor <;> nlinarith

theorem last_three_eq_drop (l : List RecentEvent) :
    last_three l = l.drop (l.length - 3) := by
  unfold last_three
  rw [← List.rtake_eq_reverse_take_reverse]
  rfl

/-! ### C1: the confidence factor at confidence = 0.0 -/

/-- C1 (code bug exhibit). The claim states
`conf_factor = 0.7 + 0.3*confidence` for every present confidence,
including 0.0, so at `confidence = 0.0` the mastery update from 0 on a
fast correct answer should be `0.15*1.0*0.7 = 0.105`.  The code's
`(confidence or 0.5)` replaces the falsy value `0.0` by `0.5`, so it
computes `0.15*1.0*0.85 = 0.1275` instead: the code and the spec formula
disagree at confidence 0.0. -/
theorem C1_conf_zero_divergence :
    update_mastery 0 true 5000 (some 0) = 51/400 ∧
    update_mastery_spec 0 true 5000 (some 0) = 21/200 ∧
    update_mastery 0 true 5000 (some 0) ≠
      update_mastery_spec 0 true 5000 (some 0) := by
  refine ⟨?_, ?_, ?_⟩ <;>
    norm_num [update_mastery, update_mastery_spec, conf_factor_of,
      conf_factor_spec, clamp_01, min_def, max_def]

/-! ### C3: the event window examined by `next_lesson_turn` -/

/-- C3 (code bug exhibit).  The fetch orders events most-recent-FIRST
(`ORDER BY created_at DESC LIMIT 5`), but `decide_next_mode` slices
`recent_events[-3:]`, so the policy examines the 3 OLDEST of the 5
fetched events.  On `stale_window_log` (three fast correct answers then
two misses) the code returns "exercise", while the policy applied to the
3 most recent events (which contain 2 misses) returns "explain". -/
theorem C3_stale_window_divergence :
    next_lesson_mode stale_window_log = "exercise" ∧
    next_mode_spec stale_window_log = "explain" ∧
    next_lesson_mode stale_window_log ≠ next_mode_spec stale_window_log := by
  refine ⟨?_, ?_, ?_⟩ <;>
    norm_num [next_lesson_mode, next_mode_spec, fetch_recent,
      stale_window_log, decide_next_mode] <;> decide

/-! ### C9: concurrent submissions on one key -/

/-- C9 (counterexample).  Two `submit_event` calls on the same key that
both read the default base state both report success (`ok = true` for
each write), and the resulting stored state differs from the serial
application of the two events: the first update is lost, contradicting
"at most one write succeeds". -/
theorem C9_lost_update :
    (run_both_read_then_write { state := default_topic_state }
      sample_submission sample_submission).2 = (true, true) ∧
    (run_both_read_then_write { state := default_topic_state }
      sample_submission sample_submission).1 ≠
      run_serial { state := default_topic_state }
        sample_submission sample_submission := by
  refine ⟨rfl, ?_⟩
  intro h
  have h2 := congrArg (fun k : KeyStore => k.state.mastery) h
  norm_num [run_both_read_then_write, run_serial, read_state, write_state,
    apply_event, update_mastery, conf_factor_of, clamp_01,
    sample_submission, default_topic_state, min_def, max_def] at h2

/-- C9 (amended).  The write of `submit_event` is an UPDATE keyed only by
(student_id, topic_id), with no version condition: when two calls read
the same base state before either writes, both writes succeed and the
final stored state reflects only the second event — last-writer-wins,
with no conflict reported and no retry. -/
theorem C9_no_compare_and_swap (db : KeyStore) (e1 e2 : EventSubmission) :
    run_both_read_then_write db e1 e2 =
      ({ state := apply_event db.state e2 }, true, true) := rfl

/-! ### C2: range and enum validation of submissions -/

/-- C2 (counterexample).  A submission with `latency_ms = -1` passes
validation (the pydantic model has no range constraint) and its
processing mutates the TopicState: the claim that such submissions are
rejected with no state mutation is false. -/
theorem C2_negative_latency_accepted :
    validate_event_submission negative_latency_submission =
      Except.ok negative_latency_submission ∧
    apply_event default_topic_state negative_latency_submission ≠
      default_topic_state := by
  refine ⟨rfl, ?_⟩
  intro h
  have h2 := congrArg TopicState.correct_ema h
  norm_num [apply_event, update_stability, ema, default_topic_state,
    negative_latency_submission] at h2

/-- C2 (amended).  Event ingestion enforces no range or enum constraint:
every submission — including one with negative `latency_ms`, confidence
outside `[0,1]`, or an `event_type` outside {probe, exercise, explain} —
is accepted, and the metric update is applied to the TopicState, which it
changes (from the default state, both the correctness EMA and the
volatility move). -/
theorem C2_no_range_validation (sub : EventSubmission)
    (h : sub.latency_ms < 0 ∨ (∃ c ∈ sub.confidence, c < 0 ∨ 1 < c) ∨
      sub.event_type ∉ ["probe", "exercise", "explain"]) :
    validate_event_submission sub = Except.ok sub ∧
    apply_event default_topic_state sub ≠ default_topic_state := by
  refine ⟨rfl, ?_⟩
  intro hc
  cases hb : sub.correct with
  | false =>
      have h2 := congrArg TopicState.volatility hc
      simp [apply_event, update_stability, ema, default_topic_state, hb]
        at h2
      norm_num at h2
  | true =>
      have h2 := congrArg TopicState.correct_ema hc
      simp [apply_event, update_stability, ema, default_topic_state, hb]
        at h2
      norm_num at h2

/-- C2 witness: the amended theorem applied to a submission with an
out-of-enum `event_type` and a confidence of 2. -/
theorem C2_no_range_validation_witness :
    validate_event_submission bogus_type_submission =
      Except.ok bogus_type_submission ∧
    apply_event default_topic_state bogus_type_submission ≠
      default_topic_state :=
  C2_no_range_validation bogus_type_submission
    (Or.inr (Or.inl ⟨2, rfl, Or.inr (by norm_num)⟩))

/-! ### C4: boundedness of the metric state -/

theorem update_mastery_mem (prev : ℚ) (correct : Bool) (lat : ℤ)
    (conf : Option ℚ) :
    0 ≤ update_mastery prev correct lat conf ∧
      update_mastery prev correct lat conf ≤ 1 :=
  ⟨clamp_01_nonneg _, clamp_01_le_one _⟩

theorem update_stability_fst_mem {pe : ℚ} (hpe0 : 0 ≤ pe) (hpe1 : pe ≤ 1)
    (pv : ℚ) (correct : Bool) :
    0 ≤ (update_stability pe pv correct).1 ∧
      (update_stability pe pv correct).1 ≤ 1 := by
  simp only [update_stability]
  cases correct <;>
    exact ema_mem (by norm_num) (by norm_num) hpe0 hpe1
      (by norm_num) (by norm_num)

theorem update_stability_snd_mem {pe pv : ℚ} (hpe0 : 0 ≤ pe) (hpe1 : pe ≤ 1)
    (hpv0 : 0 ≤ pv) (hpv1 : pv ≤ 1) (correct : Bool) :
    0 ≤ (update_stability pe pv correct).2.1 ∧
      (update_stability pe pv correct).2.1 ≤ 1 := by
  obtain ⟨hE0, hE1⟩ := update_stability_fst_mem hpe0 hpe1 pv correct
  simp only [update_stability] at hE0 hE1 ⊢
  refine ema_mem (by norm_num) (by norm_num) hpv0 hpv1 (abs_nonneg _) ?_
  rw [abs_le]
  cases correct <;> norm_num at hE0 hE1 ⊢ <;> constructor <;> linarith

theorem update_pace_mem {pp : ℚ} (hpp0 : 0 ≤ pp) (hpp1 : pp ≤ 1) (lat : ℤ) :
    0 ≤ update_pace pp lat ∧ update_pace pp lat ≤ 1 := by
  unfold update_pace
  exact ema_mem (by norm_num) (by norm_num) hpp0 hpp1
    (clamp_01_nonneg _) (clamp_01_le_one _)

theorem update_calibration_mem {pc : ℚ} (hpc0 : 0 ≤ pc) (hpc1 : pc ≤ 1)
    (correct : Bool) {conf : Option ℚ}
    (hconf : ∀ c ∈ conf, 0 ≤ c ∧ c ≤ 1) :
    0 ≤ update_calibration pc correct conf ∧
      update_calibration pc correct conf ≤ 1 := by
  cases conf with
  | none => exact ⟨hpc0, hpc1⟩
  | some c =>
      obtain ⟨hc0, hc1⟩ := hconf c rfl
      simp only [update_calibration]
      have habs : |c - (if correct then (1:ℚ) else 0)| ≤ 1 := by
        rw [abs_le]
        cases correct <;> norm_num <;> constructor <;> linarith
      exact ema_mem (by norm_num) (by norm_num) hpc0 hpc1
        (by linarith)
        (by linarith [abs_nonneg (c - (if correct then (1:ℚ) else 0))])

theorem apply_event_inv {s : TopicState} {e : EventSubmission}
    (hs : StateInv s) (he : ValidEvent e) : StateInv (apply_event s e) := by
  obtain ⟨hm0, hm1, he0, he1, hv0, hv1, hp0, hp1, hc0, hc1⟩ := hs
  obtain ⟨-, hconf⟩ := he
  unfold StateInv apply_event
  exact ⟨(update_mastery_mem s.mastery e.correct e.latency_ms e.confidence).1,
    (update_mastery_mem s.mastery e.correct e.latency_ms e.confidence).2,
    (update_stability_fst_mem he0 he1 s.volatility e.correct).1,
    (update_stability_fst_mem he0 he1 s.volatility e.correct).2,
    (update_stability_snd_mem he0 he1 hv0 hv1 e.correct).1,
    (update_stability_snd_mem he0 he1 hv0 hv1 e.correct).2,
    (update_pace_mem hp0 hp1 e.latency_ms).1,
    (update_pace_mem hp0 hp1 e.latency_ms).2,
    (update_calibration_mem hc0 hc1 e.correct hconf).1,
    (update_calibration_mem hc0 hc1 e.correct hconf).2⟩

theorem default_topic_state_inv : StateInv default_topic_state := by
  unfold StateInv default_topic_state
  norm_num

theorem foldl_apply_event_inv :
    ∀ (es : List EventSubmission) (s : TopicState), StateInv s →
      (∀ e ∈ es, ValidEvent e) → StateInv (es.foldl apply_event s) := by
  intro es
  induction es with
  | nil => intro s hs _; exact hs
  | cons e tl ih =>
      intro s hs hv
      simp only [List.foldl_cons]
      exact ih _ (apply_event_inv hs (hv e (List.mem_cons_self e tl)))
        (fun x hx => hv x (List.mem_cons_of_mem e hx))

/-- C4.  Starting from the default TopicState, after applying the metric
updates for any finite sequence of valid events (`latency_ms ≥ 0`,
confidence absent or in `[0,1]`), all five stored metrics — mastery,
correct_ema, volatility, pace, calibration — and the derived stability
`1 - volatility` lie in `[0,1]`.  Quantifying over all lists covers the
state after every individual update of a longer run. -/
theorem C4_metrics_bounded (es : List EventSubmission)
    (h : ∀ e ∈ es, ValidEvent e) :
    StateInv (es.foldl apply_event default_topic_state) ∧
    0 ≤ stability_of (es.foldl apply_event default_topic_state) ∧
    stability_of (es.foldl apply_event default_topic_state) ≤ 1 := by
  have hinv := foldl_apply_event_inv es default_topic_state
    default_topic_state_inv h
  refine ⟨hinv, ?_, ?_⟩ <;>
    obtain ⟨-, -, -, -, hv0, hv1, -⟩ := hinv <;>
    unfold stability_of <;> linarith

/-- C4 witness: the bound theorem applied to a concrete two-event run
(a fast correct answer, then the same submission again). -/
theorem C4_metrics_bounded_witness :
    StateInv ([sample_submission, sample_submission].foldl apply_event
      default_topic_state) ∧
    0 ≤ stability_of ([sample_submission, sample_submission].foldl
      apply_event default_topic_state) ∧
    stability_of ([sample_submission, sample_submission].foldl
      apply_event default_topic_state) ≤ 1 := by
  refine C4_metrics_bounded _ ?_
  intro e he
  simp only [List.mem_cons, List.not_mem_nil, or_false] at he
  rcases he with rfl | rfl <;>
    exact ⟨by norm_num [sample_submission],
      fun c hc => by simp [sample_submission] at hc⟩

/-! ### C5: the next-action policy as an ordered rule list -/

/-- C5.  The policy is total (always explain or exercise) and applies its
rules in the fixed priority order of the spec: fewer than 2 events →
explain; else, over the last 3 events (most-recent-last history), misses
≥ 2 → explain, checked before the exercise rule; else corrects ≥ 1 and
average latency < 20000 → exercise; else explain. -/
theorem C5_policy_priority (l : List RecentEvent) :
    (decide_next_mode l = "explain" ∨ decide_next_mode l = "exercise") ∧
    decide_next_mode l =
      (if l.length < 2 then "explain"
       else if 2 ≤ misses_in (last_three l) then "explain"
       else if 1 ≤ corrects_in (last_three l) ∧
           avg_latency_in (last_three l) < 20000 then "exercise"
       else "explain") := by
  have heq : decide_next_mode l =
      (if l.length < 2 then "explain"
       else if 2 ≤ misses_in (last_three l) then "explain"
       else if 1 ≤ corrects_in (last_three l) ∧
           avg_latency_in (last_three l) < 20000 then "exercise"
       else "explain") := by
    simp only [decide_next_mode, last_three_eq_drop, misses_in, corrects_in,
      avg_latency_in, List.countP_eq_length_filter, ge_iff_le]
  refine ⟨?_, heq⟩
  rw [heq]
  split_ifs <;> simp

/-! ### C6: the learning index -/

theorem python_round_nonneg {q : ℚ} (h : 0 ≤ q) : 0 ≤ python_round q := by
  simp only [python_round]
  have hf : 0 ≤ ⌊q⌋ := Int.floor_nonneg.mpr h
  split_ifs <;> omega

theorem python_round_le {q : ℚ} {n : ℤ} (h : q ≤ (n : ℚ)) :
    python_round q ≤ n := by
  simp only [python_round]
  have hf : ⌊q⌋ ≤ n := by
    calc ⌊q⌋ ≤ ⌊(n : ℚ)⌋ := Int.floor_le_floor h
    _ = n := Int.floor_intCast n
  have hfl : (⌊q⌋ : ℚ) ≤ q := Int.floor_le q
  split_ifs with h1 h2 h3
  · exact hf
  · have hq : (⌊q⌋ : ℚ) + 1/2 < q := by linarith
    have hlt : (⌊q⌋ : ℚ) < (n : ℚ) := by linarith
    have : ⌊q⌋ < n := by exact_mod_cast hlt
    omega
  · exact hf
  · have hq : (⌊q⌋ : ℚ) + 1/2 ≤ q := by
      have := le_of_not_lt h1
      linarith
    have hlt : (⌊q⌋ : ℚ) < (n : ℚ) := by linarith
    have : ⌊q⌋ < n := by exact_mod_cast hlt
    omega

/-- C6.  For metrics each in `[0,1]`, the learning index equals
`round(100*(0.55*mastery + 0.15*stability + 0.15*pace + 0.15*calibration))`
exactly (with `round` the Python builtin, i.e. half-to-even) and is an
integer in `[0,100]`. -/
theorem C6_learning_index (m s p c : ℚ) (hm0 : 0 ≤ m) (hm1 : m ≤ 1)
    (hs0 : 0 ≤ s) (hs1 : s ≤ 1) (hp0 : 0 ≤ p) (hp1 : p ≤ 1)
    (hc0 : 0 ≤ c) (hc1 : c ≤ 1) :
    compute_learning_index m s p c =
      python_round (100 * (0.55 * m + 0.15 * s + 0.15 * p + 0.15 * c)) ∧
    0 ≤ compute_learning_index m s p c ∧
    compute_learning_index m s p c ≤ 100 := by
  have h1 : compute_learning_index m s p c =
      python_round (100 * (0.55 * m + 0.15 * s + 0.15 * p + 0.15 * c)) := by
    simp only [compute_learning_index]
    exact congrArg python_round (by ring)
  refine ⟨h1, ?_, ?_⟩
  · rw [h1]
    exact python_round_nonneg (by nlinarith)
  · rw [h1]
    refine python_round_le ?_
    push_cast
    nlinarith

/-- C6 witness: the index theorem applied at
mastery 1, stability 1/2, pace 1/2, calibration 1/2. -/
theorem C6_learning_index_witness :
    compute_learning_index 1 (1/2) (1/2) (1/2) =
      python_round (100 * (0.55 * 1 + 0.15 * (1/2) + 0.15 * (1/2)
        + 0.15 * (1/2))) ∧
    0 ≤ compute_learning_index 1 (1/2) (1/2) (1/2) ∧
    compute_learning_index 1 (1/2) (1/2) (1/2) ≤ 100 :=
  C6_learning_index 1 (1/2) (1/2) (1/2) (by norm_num) (by norm_num)
    (by norm_num) (by norm_num) (by norm_num) (by norm_num)
    (by norm_num) (by norm_num)

/-! ### C7: difficulty bands -/

/-- C7.  `difficulty_band` is total and deterministic on mastery:
below 0.35 intro, from 0.35 up to (but excluding) 0.75 core, from 0.75
up stretch; the boundary values belong to the higher band. -/
theorem C7_difficulty_band (m : ℚ) :
    (m < 0.35 → difficulty_band m = "intro") ∧
    (0.35 ≤ m → m < 0.75 → difficulty_band m = "core") ∧
    (0.75 ≤ m → difficulty_band m = "stretch") := by
  unfold difficulty_band
  refine ⟨fun h => if_pos h, fun h1 h2 => ?_, fun h => ?_⟩
  · rw [if_neg (not_lt.mpr h1), if_pos h2]
  · rw [if_neg (not_lt.mpr (by linarith : (0.35:ℚ) ≤ m)),
      if_neg (not_lt.mpr h)]

/-- C7 witness: the band theorem applied at the two boundary values
0.35 and 0.75, which land in the higher band. -/
theorem C7_difficulty_band_witness :
    difficulty_band 0.35 = "core" ∧ difficulty_band 0.75 = "stretch" :=
  ⟨(C7_difficulty_band 0.35).2.1 (by norm_num) (by norm_num),
   (C7_difficulty_band 0.75).2.2 (by norm_num)⟩

/-! ### C8: absent confidence takes the no-information path -/

/-- C8.  When confidence is absent, the calibration update returns the
previous calibration unchanged and the mastery update uses
`conf_factor = 1.0` (the alpha is exactly `0.15 * speed_factor`): absence
takes its own branch and is not coerced to 0.0 or any other default. -/
theorem C8_absent_confidence (prev_m prev_cal : ℚ) (correct : Bool)
    (lat : ℤ) :
    update_calibration prev_cal correct none = prev_cal ∧
    conf_factor_of none = 1 ∧
    update_mastery prev_m correct lat none =
      clamp_01 (prev_m + 0.15 * (if lat < 15000 then (1:ℚ) else 0.6) *
        ((if correct then (1:ℚ) else 0) - prev_m)) := by
  refine ⟨rfl, rfl, ?_⟩
  simp only [update_mastery, conf_factor_of, mul_one]

/-! ### C10: a mastery update never overshoots its target -/

/-- C10.  For previous mastery in `[0,1]`, `latency_ms ≥ 0`, and
confidence absent or in `[0,1]`: on a correct answer mastery moves up,
staying ≤ 1; on an incorrect answer it moves down, staying ≥ 0 — a
single update never overshoots the target. -/
theorem C10_mastery_monotone (prev : ℚ) (correct : Bool) (lat : ℤ)
    (conf : Option ℚ) (h0 : 0 ≤ prev) (h1 : prev ≤ 1) (hlat : 0 ≤ lat)
    (hconf : ∀ c ∈ conf, 0 ≤ c ∧ c ≤ 1) :
    (correct = true → prev ≤ update_mastery prev correct lat conf ∧
      update_mastery prev correct lat conf ≤ 1) ∧
    (correct = false → 0 ≤ update_mastery prev correct lat conf ∧
      update_mastery prev correct lat conf ≤ prev) := by
  obtain ⟨hcf0, hcf1⟩ := conf_factor_of_mem hconf
  have hcf0' : (0:ℚ) ≤ conf_factor_of conf := by linarith
  simp only [update_mastery]
  have hsf0 : (0:ℚ) ≤ (if lat < 15000 then (1:ℚ) else 0.6) := by
    split_ifs <;> norm_num
  have hsf1 : (if lat < 15000 then (1:ℚ) else 0.6) ≤ 1 := by
    split_ifs <;> norm_num
  have hsc0 : (0:ℚ) ≤ (if lat < 15000 then (1:ℚ) else 0.6) *
      conf_factor_of conf := mul_nonneg hsf0 hcf0'
  have hsc1 : (if lat < 15000 then (1:ℚ) else 0.6) *
      conf_factor_of conf ≤ 1 := mul_le_one hsf1 hcf0' hcf1
  have ha0 : (0:ℚ) ≤ 0.15 * (if lat < 15000 then (1:ℚ) else 0.6) *
      conf_factor_of conf := by nlinarith
  have ha1 : 0.15 * (if lat < 15000 then (1:ℚ) else 0.6) *
      conf_factor_of conf ≤ 1 := by nlinarith
  constructor
  · intro hc
    subst hc
    simp only [if_true]
    have hval0 : (0:ℚ) ≤ prev + 0.15 * (if lat < 15000 then (1:ℚ) else 0.6) *
        conf_factor_of conf * (1 - prev) := by nlinarith
    have hval1 : prev + 0.15 * (if lat < 15000 then (1:ℚ) else 0.6) *
        conf_factor_of conf * (1 - prev) ≤ 1 := by nlinarith
    rw [clamp_01_eq_self hval0 hval1]
    exact ⟨by nlinarith, hval1⟩
  · intro hc
    subst hc
    simp only [Bool.false_eq_true, if_false]
    have hval0 : (0:ℚ) ≤ prev + 0.15 * (if lat < 15000 then (1:ℚ) else 0.6) *
        conf_factor_of conf * (0 - prev) := by nlinarith
    have hval1 : prev + 0.15 * (if lat < 15000 then (1:ℚ) else 0.6) *
        conf_factor_of conf * (0 - prev) ≤ 1 := by nlinarith
    rw [clamp_01_eq_self hval0 hval1]
    exact ⟨hval0, by nlinarith⟩

/-- C10 witness: the monotonicity theorem applied at mastery 1/2 for a
fast correct answer with confidence 4/5. -/
theorem C10_mastery_monotone_witness :
    ((true : Bool) = true → (1/2 : ℚ) ≤
        update_mastery (1/2) true 5000 (some (4/5)) ∧
      update_mastery (1/2) true 5000 (some (4/5)) ≤ 1) ∧
    ((true : Bool) = false → (0:ℚ) ≤
        update_mastery (1/2) true 5000 (some (4/5)) ∧
      update_mastery (1/2) true 5000 (some (4/5)) ≤ 1/2) :=
  C10_mastery_monotone (1/2) true 5000 (some (4/5)) (by norm_num)
    (by norm_num) (by norm_num)
    (fun c hc => by
      simp only [Option.mem_def, Option.some_inj] at hc
      subst hc
      norm_num)

end AdaptiveLearning
